import Mathlib

/-!
Shallow embedding of `src/vertex_ai_client.ts` (vertex-ai-mcp-server).

Errors thrown in the TypeScript code are modelled by their message strings
(every internal `throw` site constructs `new Error(msg)` with a non-empty
message).  JavaScript string operations are modelled over `String.data`
(lists of characters); `toLowerCase` is modelled for the ASCII range, which
covers every pattern the code matches against.
-/

deriving instance DecidableEq for Except

namespace VertexAI

/-- JS `a.includes(b)` on lists of characters: `pat` occurs as a contiguous
substring of `s`. -/
def listContains (pat : List Char) : List Char → Bool
  | [] => pat.isPrefixOf []
  | c :: rest => pat.isPrefixOf (c :: rest) || listContains pat rest

/-- JS `s.includes(pat)` (substring containment). -/
def containsSubstr (s pat : String) : Bool :=
  listContains pat.data s.data

/-- JS `s.toLowerCase()` (ASCII range). -/
def lowerStr (s : String) : String :=
  String.mk (s.data.map Char.toLower)

/-- JS regex word character `\w` = `[A-Za-z0-9_]`. -/
def jsIsWordChar (c : Char) : Bool :=
  c.isAlphanum || c == '_'

/-- JS regex whitespace `\s` (ASCII range). -/
def jsIsSpace (c : Char) : Bool :=
  c == ' ' || c == '\t' || c == '\n' || c == '\r' || c == '\x0b' || c == '\x0c'

/-- A `\b` boundary holds after a pattern when the remaining input is empty or
starts with a non-word character. -/
def boundaryAfter : List Char → Bool
  | [] => true
  | c :: _ => !jsIsWordChar c

/-- The alternatives of the regex `\b(500|503|internal|unavailable)\b`
(`src/vertex_ai_client.ts:208` and `:257`). -/
def serverCodeAlts : List (List Char) :=
  ["500".data, "503".data, "internal".data, "unavailable".data]

/-- Try each alternative at the current position: the pattern must be a prefix
of `s` and be followed by a `\b` boundary. -/
def tryServerCodeAt (s : List Char) : Option (List Char) :=
  serverCodeAlts.find? fun p => p.isPrefixOf s && boundaryAfter (s.drop p.length)

/-- Leftmost match of `\b(500|503|internal|unavailable)\b`.  `prevWord` records
whether the previous character is a word character (for the leading `\b`). -/
def serverCodeSearch : Bool → List Char → Option (List Char)
  | _, [] => none
  | prevWord, c :: rest =>
    match (if prevWord then none else tryServerCodeAt (c :: rest)) with
    | some p => some p
    | none => serverCodeSearch (jsIsWordChar c) rest

/-- JS `s.match(/\b(500|503|internal|unavailable)\b/)?.[0]`: the leftmost
matched token, if any (case-sensitive; the classifier applies it to the
lower-cased message, the formatter to the raw message). -/
def serverCodeMatch (s : String) : Option String :=
  (serverCodeSearch false s.data).map String.mk

/-- Case-insensitive literal prefix match; returns the rest of the input.
The pattern is given in lower case. -/
def matchCI : List Char → List Char → Option (List Char)
  | [], s => some s
  | _, [] => none
  | p :: ps, c :: cs => if c.toLower == p then matchCI ps cs else none

/-- After the alternation of `/(Reason|Finish Reason):\s*(\w+)/i` has matched:
consume the literal `:`, then `\s*`, then capture `(\w+)` (group 2).  Since
`\s` and `\w` are disjoint, greedy matching is deterministic. -/
def reasonTail : List Char → Option (List Char)
  | ':' :: rest =>
    let t := (rest.dropWhile jsIsSpace).takeWhile jsIsWordChar
    if t.isEmpty then none else some t
  | _ => none

/-- Leftmost match of `/(Reason|Finish Reason):\s*(\w+)/i`, returning the
second capture group.  At any one position at most one alternative can match
(they start with different letters), so alternation order is immaterial. -/
def reasonSearch : List Char → Option (List Char)
  | [] => none
  | c :: rest =>
    match (matchCI "reason".data (c :: rest)).bind reasonTail with
    | some t => some t
    | none =>
      match (matchCI "finish reason".data (c :: rest)).bind reasonTail with
      | some t => some t
      | none => reasonSearch rest

/-- JS `message.match(/(Reason|Finish Reason):\s*(\w+)/i)?.[2]`
(`src/vertex_ai_client.ts:246`). -/
def extractReasonToken (m : String) : Option String :=
  (reasonSearch m.data).map String.mk

/-- `enum AIErrorType` (`src/vertex_ai_client.ts:21`). -/
inductive AIErrorType where
  | safety
  | rateLimit
  | serverError
  | timeout
  | network
  | unknown
  deriving DecidableEq, Repr

/-- `interface AIServiceError` (`src/vertex_ai_client.ts:33`); the
`originalError` field is not modelled (errors are their messages). -/
structure AIServiceError where
  type : AIErrorType
  message : String
  retryable : Bool
  deriving DecidableEq, Repr

/-- `processResponseError` (`src/vertex_ai_client.ts:194`).  The raw error is
modelled by its message `m`; `String(error.message || error || "")` is then
`m` itself (for an `Error` with empty message JS would stringify the object,
which classifies as Unknown exactly as `""` does). -/
def processResponseError (m : String) : AIServiceError :=
  let errorMessage := lowerStr m
  let msgField := if m == "" then "Unknown error" else m
  if containsSubstr errorMessage "blocked" || containsSubstr errorMessage "safety" then
    ⟨.safety, msgField, false⟩
  else if containsSubstr errorMessage "429" then
    ⟨.rateLimit, msgField, true⟩
  else if (serverCodeMatch errorMessage).isSome || containsSubstr errorMessage "server error" then
    ⟨.serverError, msgField, true⟩
  else if containsSubstr errorMessage "deadline_exceeded" || containsSubstr errorMessage "timeout" then
    ⟨.timeout, msgField, true⟩
  else if containsSubstr errorMessage "network error" || containsSubstr errorMessage "socket hang up"
      || containsSubstr errorMessage "could not connect" || containsSubstr errorMessage "connection refused" then
    ⟨.network, msgField, true⟩
  else
    ⟨.unknown, msgField, false⟩

/-- `formatErrorMessage` (`src/vertex_ai_client.ts:243`).  The `network` case
falls through to the `default` branch in the `switch`. -/
def formatErrorMessage (e : AIServiceError) : String :=
  match e.type with
  | .safety =>
    "Content generation blocked by " ++ ((extractReasonToken e.message).getD "Safety Filter")
      ++ ". (" ++ e.message ++ ")"
  | .rateLimit =>
    "GenAI API error: Rate limit exceeded (429). Please try again later."
  | .serverError =>
    "GenAI API error: Server error (" ++ ((serverCodeMatch e.message).getD "undefined")
      ++ "). Please try again later. (" ++ e.message ++ ")"
  | .timeout =>
    "GenAI API error: Operation timed out (deadline_exceeded)."
  | .network =>
    "GenAI API error: " ++ (if e.message == "" then "Unknown error" else e.message)
  | .unknown =>
    "GenAI API error: " ++ (if e.message == "" then "Unknown error" else e.message)

example : processResponseError "Request was BLOCKED by policy" =
    ⟨.safety, "Request was BLOCKED by policy", false⟩ := by decide

example : processResponseError "HTTP 429 too many requests" =
    ⟨.rateLimit, "HTTP 429 too many requests", true⟩ := by decide

example : processResponseError "503 Server unavailable" =
    ⟨.serverError, "503 Server unavailable", true⟩ := by decide

example : processResponseError "error 5000" = ⟨.unknown, "error 5000", false⟩ := by decide

example : processResponseError "deadline_exceeded" = ⟨.timeout, "deadline_exceeded", true⟩ := by decide

example : processResponseError "socket hang up" = ⟨.network, "socket hang up", true⟩ := by decide

example : processResponseError "Received empty or non-text response without function call." =
    ⟨.unknown, "Received empty or non-text response without function call.", false⟩ := by decide

example : extractReasonToken "Content generation blocked. Finish Reason: SAFETY" = some "SAFETY" := by decide

example : extractReasonToken "no token here" = none := by decide

example : formatErrorMessage ⟨.safety, "foo Reason: OTHER", false⟩ =
    "Content generation blocked by OTHER. (foo Reason: OTHER)" := by decide

example : formatErrorMessage ⟨.serverError, "Internal Server Error", true⟩ =
    "GenAI API error: Server error (undefined). Please try again later. (Internal Server Error)" := by decide

/-- One part of a candidate content.  `text` is `undefined` or a string;
`functionCall` records JS truthiness of `part.functionCall`. -/
structure Part where
  text : Option String
  functionCall : Bool
  deriving DecidableEq, Repr

/-- One candidate.  `parts` stands for `content?.parts`, with an absent
`content`/`parts` collapsed to `[]` (observationally equal everywhere the
code reads them: `[0]?.text` and `filter`). -/
structure Candidate where
  finishReason : Option String
  parts : List Part
  deriving DecidableEq, Repr

/-- `GenerateContentResponse` as read by the client: `blockReason` stands for
`promptFeedback?.blockReason`; absent `candidates` is collapsed to `[]`. -/
structure GenerateContentResponse where
  blockReason : Option String
  candidates : List Candidate
  deriving DecidableEq, Repr

/-- JS truthiness of an optional string (`undefined` and `""` are falsy). -/
def truthyOptStr : Option String → Bool
  | some s => !(s == "")
  | none => false

/-- `response.candidates?.[0]?.content?.parts?.[0]?.text` when it is a string. -/
def firstText (r : GenerateContentResponse) : Option String :=
  r.candidates.head?.bind fun cd => cd.parts.head?.bind fun p => p.text

/-- `response.candidates?.[0]?.finishReason`. -/
def firstFinishReason (r : GenerateContentResponse) : Option String :=
  r.candidates.head?.bind fun cd => cd.finishReason

/-- `processStreamChunk` (`src/vertex_ai_client.ts:276`). -/
def processStreamChunk (chunk : GenerateContentResponse) :
    Except String (Option String) :=
  if truthyOptStr chunk.blockReason then
    .error ("Content generation blocked during stream. Reason: " ++ chunk.blockReason.getD "")
  else if firstFinishReason chunk = some "SAFETY" then
    .error "Content generation blocked during stream. Finish Reason: SAFETY"
  else
    .ok (firstText chunk)

/-- The `for await` loop of `processStreamResponse`
(`src/vertex_ai_client.ts:321`): fold the chunks in arrival order,
accumulating truthy chunk texts and remembering the last received chunk;
stop at the first chunk whose processing throws. -/
def streamLoopAccum :
    List GenerateContentResponse → String → Option GenerateContentResponse →
    Except String (String × Option GenerateContentResponse)
  | [], acc, last => .ok (acc, last)
  | c :: rest, acc, _ =>
    match processStreamChunk c with
    | .error m => .error m
    | .ok txt =>
      streamLoopAccum rest
        (match txt with
         | some s => if s == "" then acc else acc ++ s
         | none => acc)
        (some c)

/-- The `catch` of the stream loop (`src/vertex_ai_client.ts:328`): errors
mentioning safety/blocked are re-thrown wrapped. -/
def wrapStreamError (m : String) : String :=
  if containsSubstr (lowerStr m) "safety" || containsSubstr (lowerStr m) "blocked" then
    "Content generation blocked. Stream Error: " ++ m
  else m

/-- `processStreamResponse` (`src/vertex_ai_client.ts:311`): run the chunk
loop, re-check the last chunk, and fall back to the last chunk text when the
accumulator is empty.  A non-`STOP`, non-unspecified, non-`SAFETY` final
finish reason is only logged, so the model fails on the final chunk exactly
when its first finish reason is `SAFETY`. -/
def processStreamResponse (chunks : List GenerateContentResponse) :
    Except String (String × Option GenerateContentResponse) :=
  match streamLoopAccum chunks "" none with
  | .error m => .error (wrapStreamError m)
  | .ok (acc, last) =>
    match last with
    | none => .ok (acc, none)
    | some lastR =>
      if truthyOptStr lastR.blockReason then
        .error ("Content generation blocked. Final Stream Chunk Reason: " ++ lastR.blockReason.getD "")
      else if firstFinishReason lastR = some "SAFETY" then
        .error "Content generation blocked. Final Stream Chunk Finish Reason: SAFETY"
      else
        let acc' := if acc == "" then
            (match firstText lastR with
             | some s => s
             | none => acc)
          else acc
        .ok (acc', some lastR)

/-- The `catch` of `processNonStreamingResponse` (`src/vertex_ai_client.ts:436`):
errors mentioning safety / prompt blocked / content blocked are re-thrown
wrapped.  (The JS also wraps errors whose `status` field is `"BLOCKED"`;
errors are modelled by their messages, so that branch is not represented.) -/
def wrapNonStreamingError (m : String) : String :=
  if containsSubstr (lowerStr m) "safety" || containsSubstr (lowerStr m) "prompt blocked"
      || containsSubstr (lowerStr m) "content blocked" then
    "Content generation blocked. Call Reason: " ++ m
  else m

/-- `processNonStreamingResponse` (`src/vertex_ai_client.ts:393`).  The
provider call outcome is the argument: a raised error message or a response. -/
def processNonStreamingResponse (pr : Except String GenerateContentResponse) :
    Except String (Option String × GenerateContentResponse) :=
  match
    (match pr with
     | .error m => .error m
     | .ok result =>
       if truthyOptStr result.blockReason then
         .error ("Content generation blocked. Response Reason: " ++ result.blockReason.getD "")
       else if firstFinishReason result = some "SAFETY" then
         .error "Content generation blocked. Response Finish Reason: SAFETY"
       else
         .ok (firstText result, result) :
      Except String (Option String × GenerateContentResponse))
  with
  | .error m => .error (wrapNonStreamingError m)
  | .ok v => .ok v

/-- `hasFunctionCallsInResponse` (`src/vertex_ai_client.ts:456`). -/
def hasFunctionCallsInResponse : Option GenerateContentResponse → Bool
  | none => false
  | some r =>
    match r.candidates.head? with
    | none => false
    | some cd => decide (0 < (cd.parts.filter fun p => p.functionCall).length)

/-- The validity-gate error message (`src/vertex_ai_client.ts:585`). -/
def emptyResponseMessage : String :=
  "Received empty or non-text response without function call."

/-- One non-streaming attempt of `callGenerativeAI`
(`src/vertex_ai_client.ts:563`–`591`): process the provider outcome, apply
the validity gate, and return `responseText || ""`. -/
def nonStreamingAttempt (pr : Except String GenerateContentResponse) :
    Except String String :=
  match processNonStreamingResponse pr with
  | .error m => .error m
  | .ok (responseText, finalResponse) =>
    let hasFC := hasFunctionCallsInResponse (some finalResponse)
    if !truthyOptStr responseText && !hasFC then .error emptyResponseMessage
    else .ok (if truthyOptStr responseText then responseText.getD "" else "")

/-- One streaming attempt of `callGenerativeAI`
(`src/vertex_ai_client.ts:552`–`591`).  A rejection of
`generateContentStream` itself propagates unwrapped to the retry loop.
JS `!responseText` for the accumulated string is `text == ""`, and
`responseText || ""` is `text` itself in either case. -/
def streamingAttempt (pr : Except String (List GenerateContentResponse)) :
    Except String String :=
  match pr with
  | .error m => .error m
  | .ok chunks =>
    match processStreamResponse chunks with
    | .error m => .error m
    | .ok (text, finalResponse) =>
      let hasFC := hasFunctionCallsInResponse finalResponse
      if text == "" && !hasFC then .error emptyResponseMessage
      else .ok text

example :
    streamingAttempt (.ok [⟨none, [⟨none, [⟨some "Hel", false⟩]⟩]⟩,
                           ⟨none, [⟨none, [⟨some "lo", false⟩]⟩]⟩]) = .ok "Hello" := by decide

example :
    nonStreamingAttempt (.ok ⟨none, [⟨none, [⟨none, true⟩]⟩]⟩) = .ok "" := by decide

example :
    nonStreamingAttempt (.ok ⟨none, [⟨none, []⟩]⟩) = .error emptyResponseMessage := by decide

example :
    nonStreamingAttempt (.ok ⟨some "SAFETY", []⟩) =
      .error "Content generation blocked. Call Reason: Content generation blocked. Response Reason: SAFETY" := by
  decide

example :
    streamingAttempt (.ok [⟨none, [⟨some "SAFETY", []⟩]⟩]) =
      .error ("Content generation blocked. Stream Error: " ++
        "Content generation blocked during stream. Finish Reason: SAFETY") := by decide

/-- Terminal outcome of `callGenerativeAI`: the returned text or the message
of the thrown `McpError`. -/
inductive LoopOutcome where
  | success (text : String)
  | failure (message : String)
  deriving DecidableEq, Repr

/-- Observable behaviour of one run of the retry loop: the outcome, the
backoff delays slept (in order), and the number of attempts performed. -/
structure LoopResult where
  outcome : LoopOutcome
  delays : List ℚ
  attempts : Nat
  deriving DecidableEq, Repr

/-- The retry loop of `callGenerativeAI` (`src/vertex_ai_client.ts:518`–`619`),
from attempt index `attempt` with `fuel` iterations remaining
(`fuel = maxRetries + 1 - attempt` at the top-level call).  `body n` is the
outcome of attempt `n` (the whole `try` block); `jitter n` is the value of
`Math.random() * 500` drawn before the `n`-th retry.  Running out of fuel is
the fall-through after the loop (`Max retries ... reached`). -/
def runRetryLoopAux (body : Nat → Except String String) (maxRetries : Nat)
    (retryDelayMs : ℚ) (jitter : Nat → ℚ) : Nat → Nat → LoopResult
  | 0, _ =>
    ⟨.failure ("Max retries (" ++ toString (maxRetries + 1) ++ ") reached for GenAI call without success."),
      [], 0⟩
  | fuel + 1, attempt =>
    match body attempt with
    | .ok t => ⟨.success t, [], 1⟩
    | .error m =>
      let processedError := processResponseError m
      if processedError.retryable ∧ attempt < maxRetries then
        let delay := retryDelayMs * 2 ^ attempt + jitter attempt
        let rest := runRetryLoopAux body maxRetries retryDelayMs jitter fuel (attempt + 1)
        ⟨rest.outcome, delay :: rest.delays, rest.attempts + 1⟩
      else
        ⟨.failure (formatErrorMessage processedError), [], 1⟩

/-- The retry loop started at attempt 0 with its full budget. -/
def runRetryLoop (body : Nat → Except String String) (maxRetries : Nat)
    (retryDelayMs : ℚ) (jitter : Nat → ℚ) : LoopResult :=
  runRetryLoopAux body maxRetries retryDelayMs jitter (maxRetries + 1) 0

/-- `callGenerativeAI` with `useStreaming = false`
(`src/vertex_ai_client.ts:480`): `provider n` is the outcome of the `n`-th
`generateContent` call. -/
def callGenerativeAINonStreaming (provider : Nat → Except String GenerateContentResponse)
    (maxRetries : Nat) (retryDelayMs : ℚ) (jitter : Nat → ℚ) : LoopResult :=
  runRetryLoop (fun n => nonStreamingAttempt (provider n)) maxRetries retryDelayMs jitter

/-- `callGenerativeAI` with `useStreaming = true`
(`src/vertex_ai_client.ts:480`): `provider n` is the outcome of the `n`-th
`generateContentStream` call, as the list of chunks it yields. -/
def callGenerativeAIStreaming (provider : Nat → Except String (List GenerateContentResponse))
    (maxRetries : Nat) (retryDelayMs : ℚ) (jitter : Nat → ℚ) : LoopResult :=
  runRetryLoop (fun n => streamingAttempt (provider n)) maxRetries retryDelayMs jitter

/-- The configuration fields read by `initializeAIClient` and the
client-reuse check; the remaining fields of `getAIConfig()` are passed to the
loop model separately. -/
structure AIConfig where
  connectionMethod : String
  gcpProjectId : Option String
  gcpLocation : Option String
  geminiApiKey : Option String
  deriving DecidableEq, Repr

/-- The provider connection handle, identified by the parameters it was
constructed from (`new GoogleGenAI(...)`). -/
inductive ClientHandle where
  | vertex (project location : String)
  | apiKey (key : String)
  deriving DecidableEq, Repr

/-- `initializeAIClient` (`src/vertex_ai_client.ts:75`): credential presence
checks are JS truthiness; a failure is re-thrown as
`Failed to initialize AI client: ...`. -/
def initializeAIClient (cfg : AIConfig) : Except String ClientHandle :=
  if cfg.connectionMethod == "vertex" then
    if !truthyOptStr cfg.gcpProjectId || !truthyOptStr cfg.gcpLocation then
      .error ("Failed to initialize AI client: " ++
        "Missing GOOGLE_CLOUD_PROJECT or GOOGLE_CLOUD_LOCATION for Vertex AI connection.")
    else
      .ok (.vertex (cfg.gcpProjectId.getD "") (cfg.gcpLocation.getD ""))
  else
    if !truthyOptStr cfg.geminiApiKey then
      .error "Failed to initialize AI client: Missing GEMINI_API_KEY for API Key connection."
    else
      .ok (.apiKey (cfg.geminiApiKey.getD ""))

/-- The client-reuse check at the head of `callGenerativeAI`
(`src/vertex_ai_client.ts:498`–`505`): `cached` is the module-level
`generativeClient`, `defaultCfg` is `getAIConfig()`, `customConfig` the
optional override.  Returns the handle used for the call together with the
new value of `generativeClient` (unchanged when initialization throws). -/
def ensureClient (cached : Option ClientHandle) (defaultCfg : AIConfig)
    (customConfig : Option AIConfig) :
    Except String (ClientHandle × Option ClientHandle) :=
  let config := customConfig.getD defaultCfg
  match cached with
  | none => (initializeAIClient config).map fun h => (h, some h)
  | some h =>
    if customConfig.any fun c => c.connectionMethod != defaultCfg.connectionMethod then
      (initializeAIClient config).map fun h' => (h', some h')
    else
      .ok (h, some h)

example :
    ensureClient none ⟨"vertex", some "p", some "l", none⟩ none =
      .ok (.vertex "p" "l", some (.vertex "p" "l")) := by decide

example :
    ensureClient (some (.vertex "p" "l")) ⟨"vertex", some "p", some "l", none⟩
        (some ⟨"apiKey", none, none, some "k"⟩) =
      .ok (.apiKey "k", some (.apiKey "k")) := by decide

example :
    ensureClient (some (.vertex "p1" "l1")) ⟨"vertex", some "p1", some "l1", none⟩
        (some ⟨"vertex", some "p2", some "l2", none⟩) =
      .ok (.vertex "p1" "l1", some (.vertex "p1" "l1")) := by decide

example :
    runRetryLoop (fun n => if n < 2 then .error "503 Server unavailable" else .ok "Hello")
        3 1000 (fun _ => 100) =
      ⟨.success "Hello", [1100, 2100], 3⟩ := by
  simp only [runRetryLoop, runRetryLoopAux]
  norm_num
  decide

example :
    runRetryLoop (fun _ => .error "Request blocked") 3 1000 (fun _ => 100) =
      ⟨.failure "Content generation blocked by Safety Filter. (Request blocked)", [], 1⟩ := by
  simp only [runRetryLoop, runRetryLoopAux]
  norm_num
  decide

/-! Helper lemmas. -/

lemma isPrefixOf_append {p a : List Char} (b : List Char)
    (h : p.isPrefixOf a = true) : p.isPrefixOf (a ++ b) = true := by
  rw [ List.isPrefixOf_iff_prefix] at h ⊢
  exact h.trans (List.prefix_append a b)

lemma listContains_append_left {p a : List Char} (b : List Char)
    (h : listContains p a = true) : listContains p (a ++ b) = true := by
  induction a with
  | nil =>
    simp only [listContains] at h
    rw [ List.isPrefixOf_iff_prefix, List.prefix_nil] at h
    subst h
    cases b <;> simp [listContains, List.isPrefixOf]
  | cons c rest ih =>
    simp only [listContains, Bool.or_eq_true] at h ⊢
    rcases h with h | h
    · exact Or.inl (isPrefixOf_append b h)
    · exact Or.inr (ih h)

lemma listContains_append_right {p b : List Char} (a : List Char)
    (h : listContains p b = true) : listContains p (a ++ b) = true := by
  induction a with
  | nil => simpa using h
  | cons c rest ih =>
    simp only [List.cons_append, listContains, Bool.or_eq_true]
    exact Or.inr ih

lemma lowerStr_append (a b : String) : lowerStr (a ++ b) = lowerStr a ++ lowerStr b := by
  apply String.ext
  simp [lowerStr, String.data_append, List.map_append]

lemma containsSubstr_append_left {a : String} (b : String) {pat : String}
    (h : containsSubstr a pat = true) : containsSubstr (a ++ b) pat = true := by
  unfold containsSubstr at h ⊢
  rw [String.data_append]
  exact listContains_append_left b.data h

lemma containsSubstr_append_right {b : String} (a : String) {pat : String}
    (h : containsSubstr b pat = true) : containsSubstr (a ++ b) pat = true := by
  unfold containsSubstr at h ⊢
  rw [String.data_append]
  exact listContains_append_right a.data h

lemma containsLower_append_left {a : String} (b : String) {pat : String}
    (h : containsSubstr (lowerStr a) pat = true) :
    containsSubstr (lowerStr (a ++ b)) pat = true := by
  rw [lowerStr_append]
  exact containsSubstr_append_left _ h

lemma containsLower_append_right {b : String} (a : String) {pat : String}
    (h : containsSubstr (lowerStr b) pat = true) :
    containsSubstr (lowerStr (a ++ b)) pat = true := by
  rw [lowerStr_append]
  exact containsSubstr_append_right _ h

/-- Any error message matching the safety patterns classifies as a
non-retryable `safety` error. -/
lemma processResponseError_safety {m : String}
    (h : containsSubstr (lowerStr m) "blocked" = true ∨
         containsSubstr (lowerStr m) "safety" = true) :
    processResponseError m = ⟨.safety, if m == "" then "Unknown error" else m, false⟩ := by
  unfold processResponseError
  rcases h with h | h <;> simp [h]

lemma wrapStreamError_blocked {m : String}
    (h : containsSubstr (lowerStr m) "blocked" = true) :
    containsSubstr (lowerStr (wrapStreamError m)) "blocked" = true := by
  unfold wrapStreamError
  split
  · exact containsLower_append_right _ h
  · exact h

lemma wrapNonStreamingError_blocked {m : String}
    (h : containsSubstr (lowerStr m) "blocked" = true) :
    containsSubstr (lowerStr (wrapNonStreamingError m)) "blocked" = true := by
  unfold wrapNonStreamingError
  split
  · exact containsLower_append_right _ h
  · exact h

lemma runRetryLoopAux_attempts_le (body : Nat → Except String String) (mr : Nat)
    (rd : ℚ) (j : Nat → ℚ) :
    ∀ fuel a, (runRetryLoopAux body mr rd j fuel a).attempts ≤ fuel := by
  intro fuel
  induction fuel with
  | zero => intro a; simp [runRetryLoopAux]
  | succ n ih =>
    intro a
    unfold runRetryLoopAux
    cases hb : body a with
    | ok t => simp
    | error m =>
      dsimp only
      split
      · simpa using Nat.succ_le_succ (ih (a + 1))
      · simp

lemma runRetryLoopAux_success (body : Nat → Except String String) (mr : Nat)
    (rd : ℚ) (j : Nat → ℚ) :
    ∀ fuel a t, (runRetryLoopAux body mr rd j fuel a).outcome = .success t →
      ∃ n, body n = .ok t := by
  intro fuel
  induction fuel with
  | zero => intro a t h; simp [runRetryLoopAux] at h
  | succ n ih =>
    intro a t h
    unfold runRetryLoopAux at h
    cases hb : body a with
    | ok u =>
      rw [hb] at h
      simp at h
      exact ⟨a, by rw [hb, h]⟩
    | error m =>
      rw [hb] at h
      dsimp only at h
      split at h
      · exact ih (a + 1) t h
      · simp at h

lemma truthyOptStr_getD_ne {txt : Option String} (h : truthyOptStr txt = true) :
    txt.getD "" ≠ "" := by
  cases txt with
  | none => simp [truthyOptStr] at h
  | some s => simpa [truthyOptStr] using h

/-- Inversion of a successful non-streaming attempt. -/
lemma nonStreamingAttempt_ok {pr : Except String GenerateContentResponse} {t : String}
    (h : nonStreamingAttempt pr = .ok t) :
    ∃ txt r, processNonStreamingResponse pr = .ok (txt, r) ∧
      t = txt.getD "" ∧
      (t ≠ "" ∨ hasFunctionCallsInResponse (some r) = true) := by
  unfold nonStreamingAttempt at h
  cases hp : processNonStreamingResponse pr with
  | error m => rw [hp] at h; cases h
  | ok v =>
    obtain ⟨txt, r⟩ := v
    rw [hp] at h
    dsimp only at h
    refine ⟨txt, r, rfl, ?_⟩
    by_cases ht : truthyOptStr txt = true
    · rw [if_neg (by simp [ht]), if_pos ht] at h
      injection h with h
      exact ⟨h.symm, Or.inl (h ▸ truthyOptStr_getD_ne ht)⟩
    · have ht' : truthyOptStr txt = false := by simpa using ht
      by_cases hf : hasFunctionCallsInResponse (some r) = true
      · rw [if_neg (by simp [hf]), if_neg (by simp [ht'])] at h
        injection h with h
        subst h
        refine ⟨?_, Or.inr hf⟩
        cases txt with
        | none => rfl
        | some s =>
          have hs : s = "" := by simpa [truthyOptStr] using ht'
          simp [hs]
      · have hf' : hasFunctionCallsInResponse (some r) = false := by simpa using hf
        rw [if_pos (by simp [ht', hf'])] at h
        cases h

/-- The validity gate of the non-streaming path: empty/absent text and no
function call always produce the fixed empty-response error. -/
lemma nonStreamingAttempt_gate {pr : Except String GenerateContentResponse}
    {txt : Option String} {r : GenerateContentResponse}
    (hp : processNonStreamingResponse pr = .ok (txt, r))
    (ht : truthyOptStr txt = false)
    (hf : hasFunctionCallsInResponse (some r) = false) :
    nonStreamingAttempt pr = .error emptyResponseMessage := by
  unfold nonStreamingAttempt
  rw [hp]
  simp [ht, hf]

/-- Inversion of a successful streaming attempt. -/
lemma streamingAttempt_ok {chunks : List GenerateContentResponse} {t : String}
    (h : streamingAttempt (.ok chunks) = .ok t) :
    ∃ fr, processStreamResponse chunks = .ok (t, fr) ∧
      (t ≠ "" ∨ hasFunctionCallsInResponse fr = true) := by
  unfold streamingAttempt at h
  dsimp only at h
  cases hp : processStreamResponse chunks with
  | error m => rw [hp] at h; cases h
  | ok v =>
    obtain ⟨text, fr⟩ := v
    rw [hp] at h
    dsimp only at h
    by_cases ht : text = ""
    · subst ht
      by_cases hf : hasFunctionCallsInResponse fr = true
      · rw [if_neg (by simp [hf])] at h
        injection h with h
        subst h
        exact ⟨fr, rfl, Or.inr hf⟩
      · have hf' : hasFunctionCallsInResponse fr = false := by simpa using hf
        rw [if_pos (by simp [hf'])] at h
        cases h
    · rw [if_neg (by simp [ht])] at h
      injection h with h
      subst h
      exact ⟨fr, rfl, Or.inl ht⟩

/-- The validity gate of the streaming path. -/
lemma streamingAttempt_gate {chunks : List GenerateContentResponse}
    {fr : Option GenerateContentResponse}
    (hp : processStreamResponse chunks = .ok ("", fr))
    (hf : hasFunctionCallsInResponse fr = false) :
    streamingAttempt (.ok chunks) = .error emptyResponseMessage := by
  unfold streamingAttempt
  dsimp only
  rw [hp]
  simp [hf]

/-- A chunk triggers the in-stream abort: truthy block reason, or first
finish reason `SAFETY`. -/
def chunkAborts (c : GenerateContentResponse) : Bool :=
  truthyOptStr c.blockReason || decide (firstFinishReason c = some "SAFETY")

/-- One step of the accumulation of the stream loop: append the first text
part of the first candidate when it is a non-empty string. -/
def appendChunkText (acc : String) (c : GenerateContentResponse) : String :=
  match firstText c with
  | some s => if s == "" then acc else acc ++ s
  | none => acc

/-- The text accumulated over a stream with no aborting chunk. -/
def concatFirstTexts (chunks : List GenerateContentResponse) : String :=
  chunks.foldl appendChunkText ""

/-- Reading of claim C3: the concatenation of ALL text parts carried by the
chunks (every candidate, every part). -/
def allChunkTexts (chunks : List GenerateContentResponse) : String :=
  String.join (chunks.map fun c =>
    String.join (c.candidates.map fun cd =>
      String.join (cd.parts.map fun p => p.text.getD "")))

lemma processStreamChunk_clean {c : GenerateContentResponse}
    (h : chunkAborts c = false) : processStreamChunk c = .ok (firstText c) := by
  unfold chunkAborts at h
  simp only [Bool.or_eq_false_iff, decide_eq_false_iff_not] at h
  unfold processStreamChunk
  rw [if_neg (by simp [h.1]), if_neg h.2]

lemma processStreamChunk_abort {c : GenerateContentResponse}
    (h : chunkAborts c = true) : ∃ m, processStreamChunk c = .error m := by
  unfold processStreamChunk
  by_cases hb : truthyOptStr c.blockReason = true
  · exact ⟨_, by rw [if_pos hb]⟩
  · have hb' : truthyOptStr c.blockReason = false := by simpa using hb
    have h2 : firstFinishReason c = some "SAFETY" := by
      unfold chunkAborts at h
      rcases Bool.or_eq_true_iff.mp h with h1 | h2
      · exact absurd h1 hb
      · exact of_decide_eq_true h2
    exact ⟨"Content generation blocked during stream. Finish Reason: SAFETY",
      by rw [if_neg (by simp [hb']), if_pos h2]⟩

lemma streamLoopAccum_clean :
    ∀ (chunks : List GenerateContentResponse) (acc : String)
      (last : Option GenerateContentResponse),
      (∀ c ∈ chunks, chunkAborts c = false) →
      streamLoopAccum chunks acc last =
        .ok (chunks.foldl appendChunkText acc, chunks.getLast?.or last) := by
  intro chunks
  induction chunks with
  | nil => intro acc last _; rfl
  | cons c rest ih =>
    intro acc last hclean
    have hc := hclean c (List.mem_cons_self c rest)
    unfold streamLoopAccum
    rw [processStreamChunk_clean hc]
    dsimp only
    rw [ih _ (some c) (fun d hd => hclean d (List.mem_cons_of_mem c hd))]
    have hlast : rest.getLast?.or (some c) = (c :: rest).getLast?.or last := by
      cases hrest : rest.getLast? with
      | some x =>
        have hcons : (c :: rest).getLast? = some x := by
          rcases List.getLast?_eq_some_iff.mp hrest with ⟨ys, hys⟩
          exact List.getLast?_eq_some_iff.mpr ⟨c :: ys, by simp [hys]⟩
        rw [hcons]
        rfl
      | none =>
        have hnil : rest = [] := List.getLast?_eq_none_iff.mp hrest
        subst hnil
        rfl
    rw [hlast]
    rfl

lemma streamLoopAccum_abort {bad : GenerateContentResponse}
    (hbad : chunkAborts bad = true) :
    ∀ (pre post : List GenerateContentResponse) (acc : String)
      (last : Option GenerateContentResponse),
      (∀ c ∈ pre, chunkAborts c = false) →
      streamLoopAccum (pre ++ bad :: post) acc last =
        streamLoopAccum (pre ++ [bad]) acc last ∧
      ∃ m, streamLoopAccum (pre ++ bad :: post) acc last = .error m := by
  intro pre
  induction pre with
  | nil =>
    intro post acc last _
    obtain ⟨m, hm⟩ := processStreamChunk_abort hbad
    constructor
    · simp only [List.nil_append]
      unfold streamLoopAccum
      rw [hm]
    · exact ⟨m, by simp only [List.nil_append]; unfold streamLoopAccum; rw [hm]⟩
  | cons c rest ih =>
    intro post acc last hclean
    have hc := hclean c (List.mem_cons_self c rest)
    have ih' := ih post (appendChunkText acc c) (some c)
      (fun d hd => hclean d (List.mem_cons_of_mem c hd))
    constructor
    · simp only [List.cons_append]
      unfold streamLoopAccum
      rw [processStreamChunk_clean hc]
      exact ih'.1
    · obtain ⟨m, hm⟩ := ih'.2
      refine ⟨m, ?_⟩
      simp only [List.cons_append]
      unfold streamLoopAccum
      rw [processStreamChunk_clean hc]
      exact hm

lemma String.append_ne_empty_of_right {a s : String} (hs : s ≠ "") : a ++ s ≠ "" := by
  intro h
  apply hs
  have hd := congrArg String.data h
  rw [String.data_append] at hd
  rcases List.append_eq_nil.mp hd with ⟨_, h2⟩
  exact String.ext h2

lemma appendChunkText_ne_empty {acc : String} (c : GenerateContentResponse)
    (h : acc ≠ "") : appendChunkText acc c ≠ "" := by
  unfold appendChunkText
  cases firstText c with
  | none => exact h
  | some s =>
    dsimp only
    by_cases hs : s == ""
    · rw [if_pos hs]; exact h
    · rw [if_neg hs]
      exact String.append_ne_empty_of_right (by simpa using hs)

lemma foldl_appendChunkText_ne_empty :
    ∀ (chunks : List GenerateContentResponse) (acc : String), acc ≠ "" →
      chunks.foldl appendChunkText acc ≠ "" := by
  intro chunks
  induction chunks with
  | nil => intro acc h; exact h
  | cons c rest ih =>
    intro acc h
    rw [List.foldl_cons]
    exact ih _ (appendChunkText_ne_empty c h)

/-- If the accumulator over the whole stream is empty, the last chunk cannot
carry a non-empty first text. -/
lemma lastText_empty_of_foldl_empty {chunks : List GenerateContentResponse}
    {lastR : GenerateContentResponse} {s : String}
    (hl : chunks.getLast? = some lastR)
    (hacc : chunks.foldl appendChunkText "" = "")
    (hft : firstText lastR = some s) : s = "" := by
  by_contra hs
  rcases List.getLast?_eq_some_iff.mp hl with ⟨ys, hys⟩
  subst hys
  rw [List.foldl_append] at hacc
  simp only [List.foldl_cons, List.foldl_nil] at hacc
  revert hacc
  unfold appendChunkText
  rw [hft]
  dsimp only
  rw [if_neg (by simpa using hs)]
  exact String.append_ne_empty_of_right hs

/-- On a stream with no aborting chunk, `processStreamResponse` succeeds with
the accumulated first-candidate first-part texts and the last chunk. -/
lemma processStreamResponse_clean {chunks : List GenerateContentResponse}
    (hclean : ∀ c ∈ chunks, chunkAborts c = false) :
    processStreamResponse chunks = .ok (concatFirstTexts chunks, chunks.getLast?) := by
  unfold processStreamResponse
  rw [streamLoopAccum_clean chunks "" none hclean, Option.or_none]
  dsimp only
  cases hl : chunks.getLast? with
  | none => rfl
  | some lastR =>
    dsimp only
    have hmem : lastR ∈ chunks := by
      rcases List.getLast?_eq_some_iff.mp hl with ⟨ys, hys⟩
      subst hys
      simp
    have hcl := hclean lastR hmem
    unfold chunkAborts at hcl
    simp only [Bool.or_eq_false_iff, decide_eq_false_iff_not] at hcl
    rw [if_neg (by simp [hcl.1]), if_neg hcl.2]
    by_cases hacc : chunks.foldl appendChunkText "" = ""
    · rw [if_pos (by simpa using hacc)]
      cases hft : firstText lastR with
      | none => rfl
      | some s =>
        have hs := lastText_empty_of_foldl_empty hl hacc hft
        subst hs
        dsimp only
        rw [show concatFirstTexts chunks = "" from hacc]
    · rw [if_neg (by simpa using hacc)]
      rfl

/-- An aborting chunk makes `processStreamResponse` fail, with a result that
does not depend on any chunk after the aborting one. -/
lemma processStreamResponse_abort {bad : GenerateContentResponse}
    (hbad : chunkAborts bad = true)
    (pre post : List GenerateContentResponse)
    (hclean : ∀ c ∈ pre, chunkAborts c = false) :
    processStreamResponse (pre ++ bad :: post) = processStreamResponse (pre ++ [bad]) ∧
    ∃ m, processStreamResponse (pre ++ bad :: post) = .error m := by
  obtain ⟨heq, m, hm⟩ := streamLoopAccum_abort hbad pre post "" none hclean
  unfold processStreamResponse
  rw [heq]
  refine ⟨rfl, ?_⟩
  rw [← heq, hm]
  exact ⟨_, rfl⟩

lemma retryable_false_of_blocked {m : String}
    (h : containsSubstr (lowerStr m) "blocked" = true) :
    (processResponseError m).retryable = false := by
  rw [processResponseError_safety (Or.inl h)]

lemma nonStreamingAttempt_error {pr : Except String GenerateContentResponse} {m : String}
    (h : processNonStreamingResponse pr = .error m) :
    nonStreamingAttempt pr = .error m := by
  unfold nonStreamingAttempt
  rw [h]

lemma streamingAttempt_error {chunks : List GenerateContentResponse} {m : String}
    (h : processStreamResponse chunks = .error m) :
    streamingAttempt (.ok chunks) = .error m := by
  unfold streamingAttempt
  dsimp only
  rw [h]

lemma processNonStreamingResponse_clean {r : GenerateContentResponse}
    (hb : truthyOptStr r.blockReason = false)
    (hf : firstFinishReason r ≠ some "SAFETY") :
    processNonStreamingResponse (.ok r) = .ok (firstText r, r) := by
  unfold processNonStreamingResponse
  dsimp only
  rw [if_neg (by simp [hb]), if_neg hf]

lemma processNonStreamingResponse_block {r : GenerateContentResponse}
    (hb : truthyOptStr r.blockReason = true) :
    processNonStreamingResponse (.ok r) =
      .error (wrapNonStreamingError
        ("Content generation blocked. Response Reason: " ++ r.blockReason.getD "")) := by
  unfold processNonStreamingResponse
  dsimp only
  rw [if_pos hb]

lemma processNonStreamingResponse_safety {r : GenerateContentResponse}
    (hb : truthyOptStr r.blockReason = false)
    (hf : firstFinishReason r = some "SAFETY") :
    processNonStreamingResponse (.ok r) =
      .error (wrapNonStreamingError
        "Content generation blocked. Response Finish Reason: SAFETY") := by
  unfold processNonStreamingResponse
  dsimp only
  rw [if_neg (by simp [hb]), if_pos hf]

lemma processStreamResponse_single_block {r : GenerateContentResponse}
    (hb : truthyOptStr r.blockReason = true) :
    processStreamResponse [r] =
      .error (wrapStreamError
        ("Content generation blocked during stream. Reason: " ++ r.blockReason.getD "")) := by
  unfold processStreamResponse streamLoopAccum processStreamChunk
  rw [if_pos hb]

lemma processStreamResponse_single_safety {r : GenerateContentResponse}
    (hb : truthyOptStr r.blockReason = false)
    (hf : firstFinishReason r = some "SAFETY") :
    processStreamResponse [r] =
      .error (wrapStreamError
        "Content generation blocked during stream. Finish Reason: SAFETY") := by
  unfold processStreamResponse streamLoopAccum processStreamChunk
  rw [if_neg (by simp [hb]), if_pos hf]

lemma runRetryLoopAux_ok {body : Nat → Except String String} {mr : Nat} {rd : ℚ}
    {j : Nat → ℚ} {fuel a : Nat} {t : String} (h : body a = .ok t) :
    runRetryLoopAux body mr rd j (fuel + 1) a = ⟨.success t, [], 1⟩ := by
  unfold runRetryLoopAux
  rw [h]

lemma runRetryLoopAux_noretry {body : Nat → Except String String} {mr : Nat} {rd : ℚ}
    {j : Nat → ℚ} {fuel a : Nat} {m : String} (h : body a = .error m)
    (hr : (processResponseError m).retryable = false) :
    runRetryLoopAux body mr rd j (fuel + 1) a =
      ⟨.failure (formatErrorMessage (processResponseError m)), [], 1⟩ := by
  unfold runRetryLoopAux
  rw [h]
  dsimp only
  rw [if_neg (by simp [hr])]

lemma runRetryLoopAux_retry {body : Nat → Except String String} {mr : Nat} {rd : ℚ}
    {j : Nat → ℚ} {fuel a : Nat} {m : String} (h : body a = .error m)
    (hr : (processResponseError m).retryable = true) (ha : a < mr) :
    runRetryLoopAux body mr rd j (fuel + 1) a =
      ⟨(runRetryLoopAux body mr rd j fuel (a + 1)).outcome,
        (rd * 2 ^ a + j a) :: (runRetryLoopAux body mr rd j fuel (a + 1)).delays,
        (runRetryLoopAux body mr rd j fuel (a + 1)).attempts + 1⟩ := by
  conv_lhs => unfold runRetryLoopAux
  rw [h]
  dsimp only
  rw [if_pos ⟨hr, ha⟩]

/-- Feeding one provider response through the non-streaming path and the
same response as a one-chunk stream through the streaming path produces the
same attempt outcome: the same text on success, and on failure two errors
that are both non-retryable. -/
lemma attempt_equiv (r : GenerateContentResponse) :
    (∃ t, nonStreamingAttempt (.ok r) = .ok t ∧ streamingAttempt (.ok [r]) = .ok t) ∨
    (∃ m₁ m₂, nonStreamingAttempt (.ok r) = .error m₁ ∧
      streamingAttempt (.ok [r]) = .error m₂ ∧
      (processResponseError m₁).retryable = false ∧
      (processResponseError m₂).retryable = false) := by
  by_cases hb : truthyOptStr r.blockReason = true
  · right
    refine ⟨_, _, nonStreamingAttempt_error (processNonStreamingResponse_block hb),
      streamingAttempt_error (processStreamResponse_single_block hb), ?_, ?_⟩
    · exact retryable_false_of_blocked
        (wrapNonStreamingError_blocked (containsLower_append_left _ (by decide)))
    · exact retryable_false_of_blocked
        (wrapStreamError_blocked (containsLower_append_left _ (by decide)))
  · have hb' : truthyOptStr r.blockReason = false := by simpa using hb
    by_cases hf : firstFinishReason r = some "SAFETY"
    · right
      refine ⟨_, _, nonStreamingAttempt_error (processNonStreamingResponse_safety hb' hf),
        streamingAttempt_error (processStreamResponse_single_safety hb' hf), ?_, ?_⟩
      · exact retryable_false_of_blocked (wrapNonStreamingError_blocked (by decide))
      · exact retryable_false_of_blocked (wrapStreamError_blocked (by decide))
    · have hcl : ∀ c ∈ [r], chunkAborts c = false := by
        intro c hc
        rw [List.mem_singleton] at hc
        subst hc
        unfold chunkAborts
        simp [hb', hf]
      have hNS := processNonStreamingResponse_clean hb' hf
      have hS := processStreamResponse_clean hcl
      have hlast : ([r] : List GenerateContentResponse).getLast? = some r := rfl
      rw [hlast] at hS
      by_cases htr : truthyOptStr (firstText r) = true
      · obtain ⟨s, hft⟩ : ∃ s, firstText r = some s := by
          cases hq : firstText r with
          | none => rw [hq] at htr; simp [truthyOptStr] at htr
          | some s => exact ⟨s, rfl⟩
        have hs : ¬ s = "" := by
          rw [hft] at htr
          simpa [truthyOptStr] using htr
        have hconcat : concatFirstTexts [r] = s := by
          unfold concatFirstTexts
          simp only [List.foldl_cons, List.foldl_nil]
          unfold appendChunkText
          rw [hft]
          dsimp only
          rw [if_neg (by simpa using hs), String.empty_append]
        rw [hconcat] at hS
        left
        refine ⟨s, ?_, ?_⟩
        · unfold nonStreamingAttempt
          rw [hNS, hft]
          dsimp only
          rw [if_neg (by simp [truthyOptStr, hs]), if_pos (by simp [truthyOptStr, hs])]
          rfl
        · unfold streamingAttempt
          dsimp only
          rw [hS]
          dsimp only
          rw [if_neg (by simp [hs])]
      · have txtFalse : truthyOptStr (firstText r) = false := by simpa using htr
        have hconcat : concatFirstTexts [r] = "" := by
          unfold concatFirstTexts
          simp only [List.foldl_cons, List.foldl_nil]
          unfold appendChunkText
          cases hq : firstText r with
          | none => rfl
          | some s =>
            have hs : s = "" := by
              rw [hq] at txtFalse
              simpa [truthyOptStr] using txtFalse
            subst hs
            dsimp only
            rw [if_pos (by simp)]
        rw [hconcat] at hS
        by_cases hfc : hasFunctionCallsInResponse (some r) = true
        · left
          refine ⟨"", ?_, ?_⟩
          · unfold nonStreamingAttempt
            rw [hNS]
            dsimp only
            rw [if_neg (by simp [hfc]), if_neg (by simp [txtFalse])]
          · unfold streamingAttempt
            dsimp only
            rw [hS]
            dsimp only
            rw [if_neg (by simp [hfc])]
        · have hfc' : hasFunctionCallsInResponse (some r) = false := by simpa using hfc
          right
          exact ⟨emptyResponseMessage, emptyResponseMessage,
            nonStreamingAttempt_gate hNS txtFalse hfc',
            streamingAttempt_gate hS hfc', by decide, by decide⟩

/-! Claim theorems. -/

/-- C1: every invocation of `callGenerativeAI` (streaming or non-streaming)
that returns successfully either returns non-empty text or processed a final
response whose first candidate carries at least one function-call part; an
attempt whose text is empty/absent with no function-call part never returns
success but raises the fixed error
`Received empty or non-text response without function call.`. -/
theorem claim_C1_validity_gate
    (providerNS : Nat → Except String GenerateContentResponse)
    (providerS : Nat → Except String (List GenerateContentResponse))
    (mr : Nat) (rd : ℚ) (j : Nat → ℚ) (t : String) :
    ((callGenerativeAINonStreaming providerNS mr rd j).outcome = .success t →
      ∃ n txt r, processNonStreamingResponse (providerNS n) = .ok (txt, r) ∧
        t = txt.getD "" ∧ (t ≠ "" ∨ hasFunctionCallsInResponse (some r) = true)) ∧
    ((callGenerativeAIStreaming providerS mr rd j).outcome = .success t →
      ∃ n chunks fr, providerS n = .ok chunks ∧
        processStreamResponse chunks = .ok (t, fr) ∧
        (t ≠ "" ∨ hasFunctionCallsInResponse fr = true)) ∧
    (∀ pr txt r, processNonStreamingResponse pr = .ok (txt, r) →
      truthyOptStr txt = false → hasFunctionCallsInResponse (some r) = false →
      nonStreamingAttempt pr = .error emptyResponseMessage) ∧
    (∀ chunks fr, processStreamResponse chunks = .ok ("", fr) →
      hasFunctionCallsInResponse fr = false →
      streamingAttempt (.ok chunks) = .error emptyResponseMessage) := by
  refine ⟨?_, ?_, fun pr txt r hp ht hf => nonStreamingAttempt_gate hp ht hf,
    fun chunks fr hp hf => streamingAttempt_gate hp hf⟩
  · intro h
    have h' : (runRetryLoopAux (fun n => nonStreamingAttempt (providerNS n))
        mr rd j (mr + 1) 0).outcome = .success t := h
    obtain ⟨n, hn⟩ := runRetryLoopAux_success _ mr rd j (mr + 1) 0 t h'
    obtain ⟨txt, r, hp, hteq, hor⟩ := nonStreamingAttempt_ok hn
    exact ⟨n, txt, r, hp, hteq, hor⟩
  · intro h
    have h' : (runRetryLoopAux (fun n => streamingAttempt (providerS n))
        mr rd j (mr + 1) 0).outcome = .success t := h
    obtain ⟨n, hn⟩ := runRetryLoopAux_success _ mr rd j (mr + 1) 0 t h'
    cases hpn : providerS n with
    | error m =>
      rw [hpn] at hn
      have he : streamingAttempt (.error m) = (.error m : Except String String) := rfl
      rw [he] at hn
      cases hn
    | ok chunks =>
      rw [hpn] at hn
      obtain ⟨fr, hp, hor⟩ := streamingAttempt_ok hn
      exact ⟨n, chunks, fr, hpn, hp, hor⟩

/-- Witness for C1 at a concrete provider returning the text `Hello`. -/
theorem claim_C1_validity_gate_witness :
    ∃ n txt r,
      processNonStreamingResponse
        ((fun _ => .ok ⟨none, [⟨none, [⟨some "Hello", false⟩]⟩]⟩ :
          Nat → Except String GenerateContentResponse) n) = .ok (txt, r) ∧
      "Hello" = txt.getD "" ∧
      ("Hello" ≠ "" ∨ hasFunctionCallsInResponse (some r) = true) :=
  (claim_C1_validity_gate
      (fun _ => .ok ⟨none, [⟨none, [⟨some "Hello", false⟩]⟩]⟩)
      (fun _ => .ok []) 0 0 (fun _ => 0) "Hello").1 (by decide)

/-- C2: the classifier maps a raw error to its category by case-insensitive
substring matching on the stringified message, first match wins:
blocked/safety (Safety, not retryable), then 429 (RateLimit, retryable),
then the word-bounded 500/503/internal/unavailable or `server error`
(ServerError, retryable), then deadline_exceeded/timeout (Timeout,
retryable), then the four network phrases (Network, retryable), else
Unknown, not retryable. -/
theorem claim_C2_error_classifier (m : String) :
    ((containsSubstr (lowerStr m) "blocked" || containsSubstr (lowerStr m) "safety") = true →
      processResponseError m = ⟨.safety, if m == "" then "Unknown error" else m, false⟩) ∧
    ((containsSubstr (lowerStr m) "blocked" || containsSubstr (lowerStr m) "safety") = false →
      containsSubstr (lowerStr m) "429" = true →
      processResponseError m = ⟨.rateLimit, if m == "" then "Unknown error" else m, true⟩) ∧
    ((containsSubstr (lowerStr m) "blocked" || containsSubstr (lowerStr m) "safety") = false →
      containsSubstr (lowerStr m) "429" = false →
      ((serverCodeMatch (lowerStr m)).isSome || containsSubstr (lowerStr m) "server error") = true →
      processResponseError m = ⟨.serverError, if m == "" then "Unknown error" else m, true⟩) ∧
    ((containsSubstr (lowerStr m) "blocked" || containsSubstr (lowerStr m) "safety") = false →
      containsSubstr (lowerStr m) "429" = false →
      ((serverCodeMatch (lowerStr m)).isSome || containsSubstr (lowerStr m) "server error") = false →
      (containsSubstr (lowerStr m) "deadline_exceeded" || containsSubstr (lowerStr m) "timeout") = true →
      processResponseError m = ⟨.timeout, if m == "" then "Unknown error" else m, true⟩) ∧
    ((containsSubstr (lowerStr m) "blocked" || containsSubstr (lowerStr m) "safety") = false →
      containsSubstr (lowerStr m) "429" = false →
      ((serverCodeMatch (lowerStr m)).isSome || containsSubstr (lowerStr m) "server error") = false →
      (containsSubstr (lowerStr m) "deadline_exceeded" || containsSubstr (lowerStr m) "timeout") = false →
      (containsSubstr (lowerStr m) "network error" || containsSubstr (lowerStr m) "socket hang up"
        || containsSubstr (lowerStr m) "could not connect"
        || containsSubstr (lowerStr m) "connection refused") = true →
      processResponseError m = ⟨.network, if m == "" then "Unknown error" else m, true⟩) ∧
    ((containsSubstr (lowerStr m) "blocked" || containsSubstr (lowerStr m) "safety") = false →
      containsSubstr (lowerStr m) "429" = false →
      ((serverCodeMatch (lowerStr m)).isSome || containsSubstr (lowerStr m) "server error") = false →
      (containsSubstr (lowerStr m) "deadline_exceeded" || containsSubstr (lowerStr m) "timeout") = false →
      (containsSubstr (lowerStr m) "network error" || containsSubstr (lowerStr m) "socket hang up"
        || containsSubstr (lowerStr m) "could not connect"
        || containsSubstr (lowerStr m) "connection refused") = false →
      processResponseError m = ⟨.unknown, if m == "" then "Unknown error" else m, false⟩) := by
  refine ⟨fun h1 => ?_, fun h1 h2 => ?_, fun h1 h2 h3 => ?_, fun h1 h2 h3 h4 => ?_,
    fun h1 h2 h3 h4 h5 => ?_, fun h1 h2 h3 h4 h5 => ?_⟩ <;>
    · unfold processResponseError
      simp only [*]
      simp

/-- Witness for C2 at a message matching the rate-limit pattern. -/
theorem claim_C2_error_classifier_witness :
    processResponseError "HTTP 429 Too Many Requests" =
      ⟨.rateLimit,
        if "HTTP 429 Too Many Requests" == "" then "Unknown error"
        else "HTTP 429 Too Many Requests", true⟩ :=
  (claim_C2_error_classifier "HTTP 429 Too Many Requests").2.1 (by decide) (by decide)

/-- C3 counterexample: the claim says the streaming result text equals the
concatenation of ALL text parts carried by the chunks.  A single clean chunk
whose first candidate carries two text parts `"a"` and `"b"` yields result
text `"a"` (only the first part of the first candidate is read), while the
concatenation of all its text parts is `"ab"`. -/
theorem claim_C3_stream_concat_counterexample :
    processStreamResponse
        [⟨none, [⟨none, [⟨some "a", false⟩, ⟨some "b", false⟩]⟩]⟩] =
      .ok ("a", some ⟨none, [⟨none, [⟨some "a", false⟩, ⟨some "b", false⟩]⟩]⟩) ∧
    allChunkTexts [⟨none, [⟨none, [⟨some "a", false⟩, ⟨some "b", false⟩]⟩]⟩] = "ab" ∧
    ("a" : String) ≠ "ab" := by decide

/-- C3 (amended): the streaming result text equals the ordered concatenation
of the first text part of each chunk's first candidate (non-empty texts, in
arrival order) when no chunk aborts; when some chunk triggers a block-reason
or SAFETY-finish abort, the stream fails and the result does not depend on
any chunk after the first aborting one. -/
theorem claim_C3_stream_concat_amended (chunks : List GenerateContentResponse) :
    ((∀ c ∈ chunks, chunkAborts c = false) →
      processStreamResponse chunks = .ok (concatFirstTexts chunks, chunks.getLast?)) ∧
    (∀ pre bad post, chunks = pre ++ bad :: post →
      (∀ c ∈ pre, chunkAborts c = false) → chunkAborts bad = true →
      processStreamResponse chunks = processStreamResponse (pre ++ [bad]) ∧
      ∃ m, processStreamResponse chunks = .error m) := by
  constructor
  · exact processStreamResponse_clean
  · intro pre bad post hchunks hclean hbad
    subst hchunks
    exact processStreamResponse_abort hbad pre post hclean

/-- Witness for C3 (amended) on the two-chunk stream `["Hel", "lo"]`. -/
theorem claim_C3_stream_concat_amended_witness :
    processStreamResponse
        [⟨none, [⟨none, [⟨some "Hel", false⟩]⟩]⟩, ⟨none, [⟨none, [⟨some "lo", false⟩]⟩]⟩] =
      .ok (concatFirstTexts
          [⟨none, [⟨none, [⟨some "Hel", false⟩]⟩]⟩, ⟨none, [⟨none, [⟨some "lo", false⟩]⟩]⟩],
        [(⟨none, [⟨none, [⟨some "Hel", false⟩]⟩]⟩ : GenerateContentResponse),
          ⟨none, [⟨none, [⟨some "lo", false⟩]⟩]⟩].getLast?) :=
  (claim_C3_stream_concat_amended _).1 (by decide)

/-- C4 counterexample: the claim says a new handle is constructed exactly
when the connection method OR the relevant identifiers differ.  With a
cached handle for project `p1`/location `l1`, a call-time override with the
same method but project `p2`/location `l2` returns the cached handle
unchanged, even though a fresh initialization would build a different
handle. -/
theorem claim_C4_handle_reuse_counterexample :
    (some (AIConfig.mk "vertex" (some "p2") (some "l2") none)).getD
        (AIConfig.mk "vertex" (some "p1") (some "l1") none) ≠
      AIConfig.mk "vertex" (some "p1") (some "l1") none ∧
    ensureClient (some (.vertex "p1" "l1"))
        ⟨"vertex", some "p1", some "l1", none⟩
        (some ⟨"vertex", some "p2", some "l2", none⟩) =
      .ok (.vertex "p1" "l1", some (.vertex "p1" "l1")) ∧
    initializeAIClient ⟨"vertex", some "p2", some "l2", none⟩ =
      .ok (.vertex "p2" "l2") ∧
    (ClientHandle.vertex "p1" "l1") ≠ (ClientHandle.vertex "p2" "l2") := by
  refine ⟨by decide, by decide, by decide, by decide⟩

/-- C4 (amended): the engine constructs a new handle exactly when no handle
is cached or a call-time override is supplied whose connection method
differs from the current default configuration; identifiers (project,
location, API key) are never compared, so an override with the same method
reuses the cached handle unchanged. -/
theorem claim_C4_handle_reuse_amended (cached : Option ClientHandle)
    (d : AIConfig) (co : Option AIConfig) :
    ((cached = none ∨ ∃ c, co = some c ∧ c.connectionMethod ≠ d.connectionMethod) →
      ensureClient cached d co =
        (initializeAIClient (co.getD d)).map fun h => (h, some h)) ∧
    (∀ h, cached = some h → co = none → ensureClient cached d co = .ok (h, some h)) ∧
    (∀ h c, cached = some h → co = some c →
      c.connectionMethod = d.connectionMethod →
      ensureClient cached d co = .ok (h, some h)) := by
  refine ⟨?_, ?_, ?_⟩
  · rintro (hc | ⟨c, hco, hne⟩)
    · subst hc
      rfl
    · subst hco
      cases cached with
      | none => rfl
      | some h =>
        unfold ensureClient
        dsimp only
        rw [if_pos (by simp [Option.any, bne_iff_ne, hne])]
  · intro h hc hco
    subst hc
    subst hco
    rfl
  · intro h c hc hco heq
    subst hc
    subst hco
    unfold ensureClient
    dsimp only
    rw [if_neg (by simp [Option.any, bne_iff_ne, heq])]

/-- Witness for C4 (amended): an override with equal connection method
reuses the cached handle. -/
theorem claim_C4_handle_reuse_amended_witness :
    ensureClient (some (.vertex "p1" "l1"))
        ⟨"vertex", some "p1", some "l1", none⟩
        (some ⟨"vertex", some "p1", some "l1", none⟩) =
      .ok (.vertex "p1" "l1", some (.vertex "p1" "l1")) :=
  (claim_C4_handle_reuse_amended _ _ _).2.2 _ _ rfl rfl rfl

/-- C5: whenever an attempt of the retry loop raises an error whose message
contains `blocked` or `safety` (case-insensitively), the loop raises the
formatted terminal error immediately: no sleep is performed and no further
attempt is made, regardless of the remaining budget. -/
theorem claim_C5_safety_never_retried (body : Nat → Except String String)
    (mr : Nat) (rd : ℚ) (j : Nat → ℚ) (fuel attempt : Nat) (m : String)
    (hb : body attempt = .error m)
    (hs : containsSubstr (lowerStr m) "blocked" = true ∨
      containsSubstr (lowerStr m) "safety" = true) :
    runRetryLoopAux body mr rd j (fuel + 1) attempt =
      ⟨.failure (formatErrorMessage (processResponseError m)), [], 1⟩ := by
  apply runRetryLoopAux_noretry hb
  rw [processResponseError_safety hs]

/-- Witness for C5: a blocked error at attempt 0 of a budget of 5 retries. -/
theorem claim_C5_safety_never_retried_witness :
    runRetryLoopAux (fun _ => .error "Request blocked by safety filter")
        5 1000 (fun _ => 0) (5 + 1) 0 =
      ⟨.failure (formatErrorMessage
        (processResponseError "Request blocked by safety filter")), [], 1⟩ :=
  claim_C5_safety_never_retried _ 5 1000 _ 5 0 _ rfl (Or.inl (by decide))

/-- C6: when the loop transitions from failed attempt `n` to attempt `n+1`,
the delay slept is `retryDelayMs * 2 ^ n + jitter`, so for every jitter in
`[0, 500)` it lies in `[retryDelayMs * 2 ^ n, retryDelayMs * 2 ^ n + 500)`;
in particular the failure of attempt 0 waits at least the base delay. -/
theorem claim_C6_backoff_delay (body : Nat → Except String String)
    (mr : Nat) (rd : ℚ) (j : Nat → ℚ) (fuel n : Nat) (m : String)
    (hb : body n = .error m)
    (hr : (processResponseError m).retryable = true)
    (hn : n < mr)
    (hj0 : 0 ≤ j n) (hj1 : j n < 500) :
    ∃ ds, (runRetryLoopAux body mr rd j (fuel + 1) n).delays =
        (rd * 2 ^ n + j n) :: ds ∧
      rd * 2 ^ n ≤ rd * 2 ^ n + j n ∧
      rd * 2 ^ n + j n < rd * 2 ^ n + 500 := by
  rw [runRetryLoopAux_retry hb hr hn]
  exact ⟨(runRetryLoopAux body mr rd j fuel (n + 1)).delays, rfl,
    by linarith, by linarith⟩

/-- Witness for C6: a retryable timeout at attempt 0 with base delay 1000
and jitter 250. -/
theorem claim_C6_backoff_delay_witness :
    ∃ ds, (runRetryLoopAux (fun _ => .error "timeout") 3 1000 (fun _ => 250)
        (3 + 1) 0).delays = ((1000 : ℚ) * 2 ^ 0 + 250) :: ds ∧
      (1000 : ℚ) * 2 ^ 0 ≤ 1000 * 2 ^ 0 + 250 ∧
      (1000 : ℚ) * 2 ^ 0 + 250 < 1000 * 2 ^ 0 + 500 :=
  claim_C6_backoff_delay _ 3 1000 _ 3 0 _ rfl (by decide) (by norm_num)
    (by norm_num) (by norm_num)

/-- C7: for every retry budget and every sequence of provider outcomes, the
retry loop performs at most `maxRetries + 1` attempts before producing its
result (and, being a total function, it always terminates). -/
theorem claim_C7_attempt_bound (mr : Nat) (rd : ℚ) (j : Nat → ℚ) :
    (∀ body, (runRetryLoop body mr rd j).attempts ≤ mr + 1) ∧
    (∀ providerNS, (callGenerativeAINonStreaming providerNS mr rd j).attempts ≤ mr + 1) ∧
    (∀ providerS, (callGenerativeAIStreaming providerS mr rd j).attempts ≤ mr + 1) := by
  exact ⟨fun body => runRetryLoopAux_attempts_le _ mr rd j (mr + 1) 0,
    fun p => runRetryLoopAux_attempts_le _ mr rd j (mr + 1) 0,
    fun p => runRetryLoopAux_attempts_le _ mr rd j (mr + 1) 0⟩

/-- C8: the terminal error formatter is keyed on the error kind: Safety
messages embed the token extracted by `/(Reason|Finish Reason):\s*(\w+)/i`
(defaulting to `Safety Filter`), RateLimit/ServerError/Timeout use their
fixed templates, and Unknown passes the raw message through. -/
theorem claim_C8_error_formatting (e : AIServiceError) :
    (e.type = .safety → formatErrorMessage e =
      "Content generation blocked by "
        ++ ((extractReasonToken e.message).getD "Safety Filter")
        ++ ". (" ++ e.message ++ ")") ∧
    (e.type = .rateLimit → formatErrorMessage e =
      "GenAI API error: Rate limit exceeded (429). Please try again later.") ∧
    (e.type = .serverError → formatErrorMessage e =
      "GenAI API error: Server error ("
        ++ ((serverCodeMatch e.message).getD "undefined")
        ++ "). Please try again later. (" ++ e.message ++ ")") ∧
    (e.type = .timeout → formatErrorMessage e =
      "GenAI API error: Operation timed out (deadline_exceeded).") ∧
    (e.type = .unknown → formatErrorMessage e =
      "GenAI API error: " ++ (if e.message == "" then "Unknown error" else e.message)) := by
  refine ⟨?_, ?_, ?_, ?_, ?_⟩ <;> intro ht <;> unfold formatErrorMessage <;> rw [ht]

/-- Witness for C8: a safety error carrying a parsable reason token. -/
theorem claim_C8_error_formatting_witness :
    formatErrorMessage ⟨.safety, "Content blocked. Finish Reason: SAFETY", false⟩ =
      "Content generation blocked by "
        ++ ((extractReasonToken "Content blocked. Finish Reason: SAFETY").getD "Safety Filter")
        ++ ". (" ++ "Content blocked. Finish Reason: SAFETY" ++ ")" :=
  (claim_C8_error_formatting ⟨.safety, "Content blocked. Finish Reason: SAFETY", false⟩).1 rfl

/-- C9: for every provider response, running the non-streaming path on it and
the streaming path on the one-chunk stream containing it yields the same
outcome of `callGenerativeAI`: both fail, or both succeed with the identical
final text. -/
theorem claim_C9_stream_nonstream_equiv (r : GenerateContentResponse)
    (mr : Nat) (rd : ℚ) (j : Nat → ℚ) :
    (∃ t, (callGenerativeAINonStreaming (fun _ => .ok r) mr rd j).outcome = .success t ∧
      (callGenerativeAIStreaming (fun _ => .ok [r]) mr rd j).outcome = .success t) ∨
    (∃ m₁ m₂,
      (callGenerativeAINonStreaming (fun _ => .ok r) mr rd j).outcome = .failure m₁ ∧
      (callGenerativeAIStreaming (fun _ => .ok [r]) mr rd j).outcome = .failure m₂) := by
  rcases attempt_equiv r with ⟨t, hNS, hS⟩ | ⟨m₁, m₂, hNS, hS, hr₁, hr₂⟩
  · left
    refine ⟨t, ?_, ?_⟩
    · show (runRetryLoopAux (fun _ => nonStreamingAttempt (Except.ok r))
        mr rd j (mr + 1) 0).outcome = .success t
      rw [runRetryLoopAux_ok hNS]
    · show (runRetryLoopAux (fun _ => streamingAttempt (Except.ok [r]))
        mr rd j (mr + 1) 0).outcome = .success t
      rw [runRetryLoopAux_ok hS]
  · right
    refine ⟨formatErrorMessage (processResponseError m₁),
      formatErrorMessage (processResponseError m₂), ?_, ?_⟩
    · show (runRetryLoopAux (fun _ => nonStreamingAttempt (Except.ok r))
        mr rd j (mr + 1) 0).outcome = .failure (formatErrorMessage (processResponseError m₁))
      rw [runRetryLoopAux_noretry hNS (by rw [hr₁])]
    · show (runRetryLoopAux (fun _ => streamingAttempt (Except.ok [r]))
        mr rd j (mr + 1) 0).outcome = .failure (formatErrorMessage (processResponseError m₂))
      rw [runRetryLoopAux_noretry hS (by rw [hr₂])]

/-- C10: the validity-gate failure carries the fixed message
`Received empty or non-text response without function call.`, which matches
none of the retryable patterns, so it classifies as Unknown/not-retryable
and is never retried for any remaining budget. -/
theorem claim_C10_empty_response_not_retried :
    processResponseError emptyResponseMessage =
      ⟨.unknown, emptyResponseMessage, false⟩ ∧
    (∀ pr txt r, processNonStreamingResponse pr = .ok (txt, r) →
      truthyOptStr txt = false → hasFunctionCallsInResponse (some r) = false →
      nonStreamingAttempt pr = .error emptyResponseMessage) ∧
    (∀ chunks fr, processStreamResponse chunks = .ok ("", fr) →
      hasFunctionCallsInResponse fr = false →
      streamingAttempt (.ok chunks) = .error emptyResponseMessage) ∧
    (∀ body mr rd j fuel attempt, body attempt = Except.error emptyResponseMessage →
      runRetryLoopAux body mr rd j (fuel + 1) attempt =
        ⟨.failure (formatErrorMessage (processResponseError emptyResponseMessage)), [], 1⟩) := by
  exact ⟨by decide,
    fun pr txt r hp ht hf => nonStreamingAttempt_gate hp ht hf,
    fun chunks fr hp hf => streamingAttempt_gate hp hf,
    fun body mr rd j fuel attempt hb => runRetryLoopAux_noretry hb (by decide)⟩

/-- Witness for C10: an empty-response failure at attempt 2 with 5 retries
still in budget terminates immediately. -/
theorem claim_C10_empty_response_not_retried_witness :
    runRetryLoopAux (fun _ => .error emptyResponseMessage) 7 1000 (fun _ => 0) (4 + 1) 2 =
      ⟨.failure (formatErrorMessage (processResponseError emptyResponseMessage)), [], 1⟩ :=
  claim_C10_empty_response_not_retried.2.2.2 _ 7 1000 _ 4 2 rfl

end VertexAI
